import Mathlib

/-!
Verification of the MetalliSense decision pipeline.

Shallow embedding of the core decision pipeline of the MetalliSense
repository: the severity bucketing and normalization of the anomaly
detection agent (app/agents/anomaly_agent.py), the clamping, filtering,
confidence, message and warning logic of the alloy correction agent
(app/agents/alloy_agent.py) and its production wrapper
(app/agents/alloy_agent_wrapper.py), the decision policy
(app/policies/decision_policy.py), the orchestration and per-stage error
substitution of the agent manager (app/agents/agent_manager.py), and the
input validation schemas (app/schemas.py).

Numeric values are modelled as rationals.  The trained scikit-learn models
(Isolation Forest scoring model, multi-output regression model) are opaque
capabilities: they enter the embedding as function parameters, exactly as
the specification treats them (black-box raw score / raw additions vector).
-/

namespace MetalliSense

/-- The six tracked element symbols (config.ELEMENTS). -/
inductive Element where
  | Fe
  | C
  | Si
  | Mn
  | P
  | S
deriving DecidableEq, Repr

/-- config.ELEMENTS = ["Fe", "C", "Si", "Mn", "P", "S"]. -/
def ELEMENTS : List Element := [.Fe, .C, .Si, .Mn, .P, .S]

/-- Printable symbol of an element, as used in generated explanation text. -/
def Element.symbol : Element → String
  | .Fe => "Fe"
  | .C => "C"
  | .Si => "Si"
  | .Mn => "Mn"
  | .P => "P"
  | .S => "S"

/-- A composition: mapping of each tracked element to a percentage value. -/
abbrev Composition := Element → ℚ

/-- np.clip(x, lo, hi). -/
def npClip (x lo hi : ℚ) : ℚ := min (max x lo) hi

/-- config.MAX_ADDITION_PERCENTAGE = 5.0. -/
def MAX_ADDITION_PERCENTAGE : ℚ := 5

/-- config.MIN_CONFIDENCE_THRESHOLD = 0.5. -/
def MIN_CONFIDENCE_THRESHOLD : ℚ := 1/2

/-- config.ANOMALY_SEVERITY_THRESHOLDS["MEDIUM"] = 0.33. -/
def ANOMALY_SEVERITY_THRESHOLDS_MEDIUM : ℚ := 33/100

/-- config.ANOMALY_SEVERITY_THRESHOLDS["HIGH"] = 0.66. -/
def ANOMALY_SEVERITY_THRESHOLDS_HIGH : ℚ := 66/100

/-- decision_policy.SeverityLevel: the four-value severity enum. -/
inductive SeverityLevel where
  | LOW
  | MEDIUM
  | HIGH
  | ERROR
deriving DecidableEq, Repr

/-- SeverityLevel.value: the string value of each enum member. -/
def SeverityLevel.val : SeverityLevel → String
  | .LOW => "LOW"
  | .MEDIUM => "MEDIUM"
  | .HIGH => "HIGH"
  | .ERROR => "ERROR"

/-- DecisionPolicy.should_check_anomaly: always True. -/
def DecisionPolicy.should_check_anomaly (_composition : Composition) : Bool := true

/-- DecisionPolicy.should_recommend_alloy.

The Python function receives `anomaly_result: Optional[Dict]`.  The embedding
passes the part the function reads: the outer `Option` is the dict being
present (`None` check), the inner `Option String` is the lookup of the
`"severity"` key (`anomaly_result.get("severity", "LOW")` defaults to
`"LOW"` when the key is absent). -/
def DecisionPolicy.should_recommend_alloy (anomaly_result : Option (Option String)) : Bool :=
  match anomaly_result with
  | none => false
  | some severityEntry =>
    let severity := severityEntry.getD "LOW"
    if severity = SeverityLevel.MEDIUM.val ∨ severity = SeverityLevel.HIGH.val then
      true
    else
      false

/-- DecisionPolicy.requires_human_approval: always True. -/
def DecisionPolicy.requires_human_approval
    (_anomaly_result _alloy_result : Option (Option String)) : Bool := true

/-- DecisionPolicy.is_action_allowed: always False. -/
def DecisionPolicy.is_action_allowed (_action : String) : Bool := false

/-- DecisionPolicy.get_safety_note. -/
def DecisionPolicy.get_safety_note : String := "Human approval required before action"

/-- AnomalyDetectionAgent._normalize_score: invert and normalize the raw
score, then np.clip to [0, 1]. -/
def AnomalyDetectionAgent.normalize_score (raw_score score_min score_max : ℚ) : ℚ :=
  npClip ((score_max - raw_score) / (score_max - score_min)) 0 1

/-- AnomalyDetectionAgent._get_severity: bucket a normalized score using the
two thresholds of config.ANOMALY_SEVERITY_THRESHOLDS. -/
def AnomalyDetectionAgent.get_severity (normalized_score : ℚ) : String :=
  if normalized_score < ANOMALY_SEVERITY_THRESHOLDS_MEDIUM then "LOW"
  else if normalized_score < ANOMALY_SEVERITY_THRESHOLDS_HIGH then "MEDIUM"
  else "HIGH"

/-- Output dictionary of AnomalyDetectionAgent.predict. -/
structure PredictOutput where
  anomaly_score : ℚ
  severity : String
  message : String
  raw_score : ℚ
deriving DecidableEq, Repr

/-- The per-severity explanation text of AnomalyDetectionAgent.predict. -/
def AnomalyDetectionAgent.severity_message (severity : String) : String :=
  if severity = "LOW" then
    "Composition appears normal with expected characteristics."
  else if severity = "MEDIUM" then
    "Moderate anomaly detected. Consider verifying sensor calibration."
  else
    "High anomaly detected. Potential sensor drift or unstable melt chemistry."

/-- AnomalyDetectionAgent.predict.

`score` is the opaque trained scoring capability (the composition of the
fitted StandardScaler and IsolationForest.score_samples).  `draw0 :: draws`
models the 1000 reference samples that the Python code draws FRESH from
np.random.randn on every call to compute the calibration pair
(score_min, score_max); they are an explicit input here because they are an
input of the computation (the state of the process RNG at call time). -/
def AnomalyDetectionAgent.predict (score : Composition → ℚ) (composition : Composition)
    (draw0 : Composition) (draws : List Composition) : PredictOutput :=
  let raw_score := score composition
  let score_min := (draws.map score).foldl min (score draw0)
  let score_max := (draws.map score).foldl max (score draw0)
  let normalized_score := AnomalyDetectionAgent.normalize_score raw_score score_min score_max
  let severity := AnomalyDetectionAgent.get_severity normalized_score
  ⟨normalized_score, severity, AnomalyDetectionAgent.severity_message severity, raw_score⟩

/-- Structured response of the anomaly agent wrapper (and of the ERROR
substitute built by the agent manager). -/
structure AnomalyAgentResponse where
  agent : String
  anomaly_score : ℚ
  severity : String
  confidence : ℚ
  explanation : String
deriving DecidableEq, Repr

/-- AnomalyDetectionAgentWrapper._calculate_confidence:
2 * |score - 0.5|, np.clip-ped to [0, 1]. -/
def AnomalyDetectionAgentWrapper.calculate_confidence (anomaly_score : ℚ) : ℚ :=
  npClip (2 * |anomaly_score - 1/2|) 0 1

/-- AnomalyDetectionAgentWrapper._generate_explanation. -/
def AnomalyDetectionAgentWrapper.generate_explanation (severity : String) : String :=
  if severity = "LOW" then
    "Detected deviation from historical composition distribution. Reading is within normal operational variance."
  else if severity = "MEDIUM" then
    "Moderate anomaly detected in composition pattern. Recommend verifying sensor calibration and melt stability."
  else if severity = "HIGH" then
    "High anomaly detected - composition significantly deviates from historical patterns. Possible sensor drift, contamination, or unstable melt chemistry. Human inspection recommended."
  else
    "Unable to classify anomaly severity."

/-- AnomalyDetectionAgentWrapper.analyze: wrap the underlying model call
(`ml_result`, an exception or a predict output) into the structured agent
response; any exception is converted to the graceful ERROR response. -/
def AnomalyDetectionAgentWrapper.analyze
    (ml_result : Except String PredictOutput) : AnomalyAgentResponse :=
  match ml_result with
  | .error e =>
    ⟨"AnomalyDetectionAgent", 0, "ERROR", 0, "Agent error: " ++ e⟩
  | .ok r =>
    ⟨"AnomalyDetectionAgent", r.anomaly_score, r.severity,
      AnomalyDetectionAgentWrapper.calculate_confidence r.anomaly_score,
      AnomalyDetectionAgentWrapper.generate_explanation r.severity⟩

/-- The constant composition, used as a concrete input below. -/
def constComp (q : ℚ) : Composition := fun _ => q

/-- A concrete representative of the opaque scoring capability: project the
Fe component. -/
def scoreFe : Composition → ℚ := fun c => c Element.Fe

/-- The Python round(x, 4) to the nearest integer step: round half up here;
Python rounds exact .00005 ties to even, a difference that no statement in
this file touches (no input below sits on a tie). -/
def roundq (x : ℚ) : ℤ := ⌊x + 1/2⌋

/-- round(value, 4): round to four decimal places. -/
def round4 (x : ℚ) : ℚ := (roundq (x * 10000) : ℚ) / 10000

/-- roundq is monotone. -/
theorem roundq_mono {a b : ℚ} (h : a ≤ b) : roundq a ≤ roundq b :=
  Int.floor_le_floor (by linarith)

/-- round4 is monotone. -/
theorem round4_mono {a b : ℚ} (h : a ≤ b) : round4 a ≤ round4 b := by
  unfold round4
  have := roundq_mono (by linarith : a * 10000 ≤ b * 10000)
  have hc : ((roundq (a * 10000) : ℚ)) ≤ ((roundq (b * 10000) : ℚ)) := by exact_mod_cast this
  linarith

/-- The per-element clamp of AlloyCorrectionAgent.predict: floor negative raw
predictions at 0 (value = max(0.0, prediction[i])), then cap at
MAX_ADDITION_PERCENTAGE. -/
def AlloyCorrectionAgent.clamp_addition (p : ℚ) : ℚ :=
  if max 0 p > MAX_ADDITION_PERCENTAGE then MAX_ADDITION_PERCENTAGE else max 0 p

/-- The additions loop of AlloyCorrectionAgent.predict: clamp each element of
the raw regression output, keep only values above the 0.01 significance
floor, store them rounded to 4 decimal places. -/
def AlloyCorrectionAgent.compute_additions (prediction : Element → ℚ) : List (Element × ℚ) :=
  ELEMENTS.filterMap fun element =>
    let value := AlloyCorrectionAgent.clamp_addition (prediction element)
    if value > 1/100 then some (element, round4 value) else none

/-- AlloyCorrectionAgent._calculate_confidence: weighted sum of the addition
magnitude factor, the corrections-needed factor and the deviation factor,
np.clip-ped to [0, 1].  `target_comp` is the grade midpoint delivered by
GradeSpecificationGenerator.get_composition_midpoint. -/
def AlloyCorrectionAgent.calculate_confidence (additions : List (Element × ℚ))
    (current_comp target_comp : Composition) : ℚ :=
  let total_addition := (additions.map Prod.snd).sum
  let addition_factor := 1 - min (total_addition / 5) 1
  let num_corrections := (additions.filter fun p => p.2 > 1/100).length
  let correction_factor := 1 - (num_corrections : ℚ) / (ELEMENTS.length : ℚ)
  let total_deviation := (ELEMENTS.map fun el => |current_comp el - target_comp el|).sum
  let deviation_factor := 1 - min (total_deviation / 10) 1
  npClip (4/10 * addition_factor + 3/10 * correction_factor + 3/10 * deviation_factor) 0 1

/-- The message selection of AlloyCorrectionAgent.predict. -/
def AlloyCorrectionAgent.message_for (additions : List (Element × ℚ)) (confidence : ℚ) : String :=
  if additions = [] then
    "Composition is close to target. No significant additions needed."
  else if confidence ≥ 8/10 then
    "High confidence recommendation. Additions should bring composition into spec."
  else if confidence ≥ 6/10 then
    "Moderate confidence. Consider verifying with metallurgical expert."
  else
    "Low confidence. Large corrections needed. Manual review recommended."

/-- The warning selection of AlloyCorrectionAgent.predict: an if/elif chain,
so at most one warning is produced and the large-total branch wins. -/
def AlloyCorrectionAgent.warning_for (additions : List (Element × ℚ)) (confidence : ℚ) :
    Option String :=
  if (additions.map Prod.snd).sum > 3 then
    some "Large total addition required (>3%). Consider re-melting or blending."
  else if confidence < MIN_CONFIDENCE_THRESHOLD then
    some "Confidence below threshold (0.5). Use with caution."
  else
    none

/-- Result dictionary of AlloyCorrectionAgent.predict. -/
structure CorrectionResult where
  recommended_additions : List (Element × ℚ)
  confidence : ℚ
  message : String
  warning : Option String
deriving DecidableEq, Repr

/-- AlloyCorrectionAgent.predict.

`grade_encodings` is the trained grade set of the regression model;
`prediction` is the opaque raw regression output for the feature vector
(the inverse-transformed prediction vector, one rational per element). -/
def AlloyCorrectionAgent.predict (grade_encodings : List String) (grade : String)
    (prediction : Element → ℚ) (composition target_comp : Composition) : CorrectionResult :=
  if grade ∉ grade_encodings then
    ⟨[], 0, "Unknown grade: " ++ grade, some ("Grade not in training data: " ++ grade)⟩
  else
    let additions := AlloyCorrectionAgent.compute_additions prediction
    let confidence := AlloyCorrectionAgent.calculate_confidence additions composition target_comp
    ⟨additions, confidence, AlloyCorrectionAgent.message_for additions confidence,
      AlloyCorrectionAgent.warning_for additions confidence⟩

/-- The registered grade names of GradeSpecificationGenerator. -/
def available_grades : List String :=
  ["SG-IRON", "GREY-IRON", "LOW-CARBON-STEEL", "MEDIUM-CARBON-STEEL", "HIGH-CARBON-STEEL"]

/-- The Python f-string format spec .2f rendering for the non-negative addition amounts
appearing in explanations. -/
def format2 (amt : ℚ) : String :=
  let n := (roundq (amt * 100)).toNat
  toString (n / 100) ++ "." ++ (if n % 100 < 10 then "0" else "") ++ toString (n % 100)

/-- The element list rendering of
AlloyCorrectionAgentWrapper._generate_explanation. -/
def AlloyCorrectionAgentWrapper.element_list (additions : List (Element × ℚ)) : String :=
  String.intercalate ", " (additions.map fun p => p.1.symbol ++ ": +" ++ format2 p.2 ++ "%")

/-- The confidence_text selection inside
AlloyCorrectionAgentWrapper._generate_explanation: thresholds 0.85 and 0.70. -/
def AlloyCorrectionAgentWrapper.confidence_text (confidence : ℚ) : String :=
  if confidence ≥ 85/100 then "High confidence"
  else if confidence ≥ 70/100 then "Moderate confidence"
  else "Low confidence"

/-- AlloyCorrectionAgentWrapper._generate_explanation. -/
def AlloyCorrectionAgentWrapper.generate_explanation (grade : String)
    (additions : List (Element × ℚ)) (confidence : ℚ) : String :=
  if additions = [] then
    "Composition is within acceptable range for " ++ grade ++ ". No additions required."
  else
    "Adjusting elements toward " ++ grade ++ " grade midpoint. Recommended: " ++
      AlloyCorrectionAgentWrapper.element_list additions ++ ". " ++
      AlloyCorrectionAgentWrapper.confidence_text confidence ++
      " in recommendation based on historical correction patterns."

/-- Structured response of the alloy agent wrapper (and of the ERROR and
not-invoked substitutes built by the agent manager). -/
structure AlloyAgentResponse where
  agent : String
  recommended_additions : List (Element × ℚ)
  confidence : ℚ
  explanation : String
deriving DecidableEq, Repr

/-- AlloyCorrectionAgentWrapper.recommend: validate the grade against the
registry, call the underlying model (`ml_result`, an exception or a predict
result), filter negligible additions, attach the generated explanation; any
exception is converted to the graceful error response. -/
def AlloyCorrectionAgentWrapper.recommend (grades : List String) (grade : String)
    (ml_result : Except String CorrectionResult) : AlloyAgentResponse :=
  if grade ∉ grades then
    ⟨"AlloyCorrectionAgent", [], 0,
      "Unknown grade: " ++ grade ++ ". Available: " ++ String.intercalate ", " grades⟩
  else
    match ml_result with
    | .error e => ⟨"AlloyCorrectionAgent", [], 0, "Agent error: " ++ e⟩
    | .ok r =>
      let filtered := r.recommended_additions.filter fun p => p.2 ≥ 1/100
      ⟨"AlloyCorrectionAgent", filtered, r.confidence,
        AlloyCorrectionAgentWrapper.generate_explanation grade filtered r.confidence⟩

/-- C3: DecisionPolicy.should_recommend_alloy returns true exactly for the
MEDIUM and HIGH members of the four-value severity enum, and false for LOW
and ERROR, when given an anomaly result carrying that severity value. -/
theorem should_recommend_alloy_iff_medium_or_high :
    DecisionPolicy.should_recommend_alloy (some (some SeverityLevel.LOW.val)) = false ∧
    DecisionPolicy.should_recommend_alloy (some (some SeverityLevel.MEDIUM.val)) = true ∧
    DecisionPolicy.should_recommend_alloy (some (some SeverityLevel.HIGH.val)) = true ∧
    DecisionPolicy.should_recommend_alloy (some (some SeverityLevel.ERROR.val)) = false := by
  decide

/-- C9: should_recommend_alloy returns false when the anomaly result is None,
and when the result dict has no "severity" key the severity defaults to
"LOW", so the function again returns false. -/
theorem should_recommend_alloy_absent_or_malformed :
    DecisionPolicy.should_recommend_alloy none = false ∧
    DecisionPolicy.should_recommend_alloy (some none) = false := by
  decide

/-- C4: for every normalized score s in [0, 1], _get_severity returns LOW
when s < 0.33, MEDIUM when 0.33 ≤ s < 0.66, and HIGH when s ≥ 0.66. -/
theorem get_severity_buckets (s : ℚ) (h0 : 0 ≤ s) (h1 : s ≤ 1) :
    (s < 33/100 → AnomalyDetectionAgent.get_severity s = "LOW") ∧
    (33/100 ≤ s → s < 66/100 → AnomalyDetectionAgent.get_severity s = "MEDIUM") ∧
    (66/100 ≤ s → AnomalyDetectionAgent.get_severity s = "HIGH") := by
  refine ⟨fun h => ?_, fun hm hh => ?_, fun h => ?_⟩
  · simp only [AnomalyDetectionAgent.get_severity, ANOMALY_SEVERITY_THRESHOLDS_MEDIUM]
    rw [if_pos h]
  · simp only [AnomalyDetectionAgent.get_severity, ANOMALY_SEVERITY_THRESHOLDS_MEDIUM,
      ANOMALY_SEVERITY_THRESHOLDS_HIGH]
    rw [if_neg (by linarith), if_pos hh]
  · simp only [AnomalyDetectionAgent.get_severity, ANOMALY_SEVERITY_THRESHOLDS_MEDIUM,
      ANOMALY_SEVERITY_THRESHOLDS_HIGH]
    rw [if_neg (by linarith), if_neg (by linarith)]

/-- Witness for C4 at s = 1/2: in range, and bucketed as MEDIUM. -/
theorem get_severity_buckets_witness :
    AnomalyDetectionAgent.get_severity (1/2) = "MEDIUM" :=
  (get_severity_buckets (1/2) (by norm_num) (by norm_num)).2.1 (by norm_num) (by norm_num)

/-- C1: the anomaly evaluation is NOT deterministic.  AnomalyDetectionAgent.predict
recomputes the calibration pair (score_min, score_max) from reference samples
drawn fresh from np.random.randn on every call, so two calls with the
identical composition and the identical trained model can return different
normalized scores, severities and confidences: here the same composition
(all elements 0.5) scores 0.5 / MEDIUM / confidence 0 under one RNG draw
and 0.75 / HIGH / confidence 0.5 under another. -/
theorem anomaly_predict_not_deterministic :
    (AnomalyDetectionAgent.predict scoreFe (constComp (1/2))
        (constComp 0) [constComp 1]).anomaly_score = 1/2 ∧
    (AnomalyDetectionAgent.predict scoreFe (constComp (1/2))
        (constComp 0) [constComp 2]).anomaly_score = 3/4 ∧
    (AnomalyDetectionAgent.predict scoreFe (constComp (1/2))
        (constComp 0) [constComp 1]).severity = "MEDIUM" ∧
    (AnomalyDetectionAgent.predict scoreFe (constComp (1/2))
        (constComp 0) [constComp 2]).severity = "HIGH" ∧
    (AnomalyDetectionAgentWrapper.analyze (.ok (AnomalyDetectionAgent.predict scoreFe
        (constComp (1/2)) (constComp 0) [constComp 1]))).confidence = 0 ∧
    (AnomalyDetectionAgentWrapper.analyze (.ok (AnomalyDetectionAgent.predict scoreFe
        (constComp (1/2)) (constComp 0) [constComp 2]))).confidence = 1/2 := by
  refine ⟨?_, ?_, ?_, ?_, ?_, ?_⟩ <;>
    simp [AnomalyDetectionAgent.predict, AnomalyDetectionAgentWrapper.analyze,
      AnomalyDetectionAgentWrapper.calculate_confidence,
      AnomalyDetectionAgent.normalize_score, AnomalyDetectionAgent.get_severity,
      scoreFe, constComp, npClip, ANOMALY_SEVERITY_THRESHOLDS_MEDIUM,
      ANOMALY_SEVERITY_THRESHOLDS_HIGH] <;> norm_num [inf_eq_min, min_def, abs_of_nonneg]

/-- The clamp is non-negative. -/
theorem AlloyCorrectionAgent.clamp_addition_nonneg (p : ℚ) :
    0 ≤ AlloyCorrectionAgent.clamp_addition p := by
  unfold AlloyCorrectionAgent.clamp_addition
  split
  · norm_num [MAX_ADDITION_PERCENTAGE]
  · exact le_max_left 0 p

/-- The clamp is at most MAX_ADDITION_PERCENTAGE. -/
theorem AlloyCorrectionAgent.clamp_addition_le (p : ℚ) :
    AlloyCorrectionAgent.clamp_addition p ≤ MAX_ADDITION_PERCENTAGE := by
  unfold AlloyCorrectionAgent.clamp_addition
  split
  · exact le_refl _
  · exact le_of_not_lt (by assumption)

/-- round4 fixes 1/100. -/
theorem round4_one_hundredth : round4 (1/100) = 1/100 := by
  norm_num [round4, roundq]

/-- round4 fixes 5. -/
theorem round4_five : round4 (5 : ℚ) = 5 := by
  norm_num [round4, roundq]

/-- C2 (amended): every value stored in the recommended_additions map is
non-negative, at least the 0.01 significance floor, and at most
MAX_ADDITION_PERCENTAGE = 5.0, for any raw regression output. -/
theorem recommended_additions_bounds (prediction : Element → ℚ) (el : Element) (v : ℚ)
    (hmem : (el, v) ∈ AlloyCorrectionAgent.compute_additions prediction) :
    0 ≤ v ∧ 1/100 ≤ v ∧ v ≤ MAX_ADDITION_PERCENTAGE := by
  unfold AlloyCorrectionAgent.compute_additions at hmem
  rw [List.mem_filterMap] at hmem
  obtain ⟨e, -, hfe⟩ := hmem
  dsimp only at hfe
  split at hfe
  case isTrue hgt =>
    obtain ⟨rfl, rfl⟩ : e = el ∧ round4 (AlloyCorrectionAgent.clamp_addition (prediction e)) = v := by
      injection hfe with h
      exact ⟨congrArg Prod.fst h, congrArg Prod.snd h⟩
    have hfloor : 1/100 ≤ round4 (AlloyCorrectionAgent.clamp_addition (prediction e)) := by
      calc (1/100 : ℚ) = round4 (1/100) := round4_one_hundredth.symm
        _ ≤ _ := round4_mono (le_of_lt hgt)
    refine ⟨by linarith, hfloor, ?_⟩
    calc round4 (AlloyCorrectionAgent.clamp_addition (prediction e))
        ≤ round4 MAX_ADDITION_PERCENTAGE :=
          round4_mono (AlloyCorrectionAgent.clamp_addition_le (prediction e))
      _ = MAX_ADDITION_PERCENTAGE := round4_five
  case isFalse => exact absurd hfe (by simp)

/-- Witness for C2 (amended): a raw output of 2 for every element is stored
as 2, which satisfies all three bounds. -/
theorem recommended_additions_bounds_witness :
    (0 : ℚ) ≤ 2 ∧ (1/100 : ℚ) ≤ 2 ∧ (2 : ℚ) ≤ MAX_ADDITION_PERCENTAGE :=
  recommended_additions_bounds (fun _ => 2) Element.Fe 2 (by
    norm_num [AlloyCorrectionAgent.compute_additions, ELEMENTS,
      AlloyCorrectionAgent.clamp_addition, round4, roundq, List.filterMap,
      MAX_ADDITION_PERCENTAGE])

/-- The raw regression output refuting the strict-floor reading of C2: the
Fe entry 0.010004 passes the strict significance test but rounds down to
exactly 0.01; every other entry is negative and is floored away. -/
def cexPrediction : Element → ℚ
  | .Fe => 10004/1000000
  | _ => -1

/-- C2 counterexample: the claim as stated is false.  For the raw output
cexPrediction the map contains the value 1/100 = 0.01 exactly, which is not
strictly greater than the 0.01 significance floor. -/
theorem recommended_additions_strict_floor_cex :
    AlloyCorrectionAgent.compute_additions cexPrediction = [(Element.Fe, 1/100)] ∧
    ¬ ((1/100 : ℚ) > 1/100) := by
  constructor
  · norm_num [AlloyCorrectionAgent.compute_additions, ELEMENTS,
      AlloyCorrectionAgent.clamp_addition, round4, roundq, List.filterMap,
      MAX_ADDITION_PERCENTAGE, cexPrediction]
  · norm_num

/-- C10: the warning selection emits at most one warning, the large-total
branch wins even when the confidence is also below MIN_CONFIDENCE_THRESHOLD,
the low-confidence warning appears only when the total is at most 3.0 and
confidence < 0.5, and otherwise the warning is None. -/
theorem warning_precedence (additions : List (Element × ℚ)) (confidence : ℚ) :
    ((additions.map Prod.snd).sum > 3 →
      AlloyCorrectionAgent.warning_for additions confidence =
        some "Large total addition required (>3%). Consider re-melting or blending.") ∧
    ((additions.map Prod.snd).sum ≤ 3 → confidence < MIN_CONFIDENCE_THRESHOLD →
      AlloyCorrectionAgent.warning_for additions confidence =
        some "Confidence below threshold (0.5). Use with caution.") ∧
    ((additions.map Prod.snd).sum ≤ 3 → MIN_CONFIDENCE_THRESHOLD ≤ confidence →
      AlloyCorrectionAgent.warning_for additions confidence = none) := by
  refine ⟨fun h => ?_, fun h hc => ?_, fun h hc => ?_⟩
  · unfold AlloyCorrectionAgent.warning_for
    rw [if_pos h]
  · unfold AlloyCorrectionAgent.warning_for
    rw [if_neg (not_lt.mpr h), if_pos hc]
  · unfold AlloyCorrectionAgent.warning_for
    rw [if_neg (not_lt.mpr h), if_neg (not_lt.mpr hc)]

/-- Witness for C10: a total addition of 4 with confidence 0.2 (also below
the 0.5 threshold) yields the large-addition warning, not the
low-confidence one. -/
theorem warning_precedence_witness :
    AlloyCorrectionAgent.warning_for [(Element.Fe, 4)] (2/10) =
      some "Large total addition required (>3%). Consider re-melting or blending." :=
  (warning_precedence [(Element.Fe, 4)] (2/10)).1 (by norm_num)

/-- C8 counterexample: the claim as stated is false at confidence 0.82.
0.82 is at least 0.8, so the claim requires the high-confidence message in
the explanation surfaced through the pipeline wrapper; the explanation of
the wrapper instead carries the moderate tier, because
_generate_explanation uses its own thresholds 0.85 and 0.70. -/
theorem wrapper_explanation_tiers_cex :
    (8/10 : ℚ) ≤ 82/100 ∧
    AlloyCorrectionAgentWrapper.confidence_text (82/100) = "Moderate confidence" ∧
    AlloyCorrectionAgentWrapper.generate_explanation "SG-IRON" [(Element.Si, 1/2)] (82/100) =
      "Adjusting elements toward SG-IRON grade midpoint. Recommended: Si: +0.50%. " ++
        "Moderate confidence in recommendation based on historical correction patterns." := by
  refine ⟨by norm_num, ?_, ?_⟩
  · norm_num [AlloyCorrectionAgentWrapper.confidence_text]
  · have h50 : roundq ((1/2 : ℚ) * 100) = 50 := by norm_num [roundq]
    have hct : AlloyCorrectionAgentWrapper.confidence_text (82/100) = "Moderate confidence" := by
      norm_num [AlloyCorrectionAgentWrapper.confidence_text]
    unfold AlloyCorrectionAgentWrapper.generate_explanation
    rw [if_neg (by simp), hct]
    unfold AlloyCorrectionAgentWrapper.element_list
    simp only [List.map_cons, List.map_nil, format2, Element.symbol, h50]
    decide

/-- C8 (amended): the inner agent message tiers follow the claim exactly
(confidence at least 0.8 high, in [0.6, 0.8) moderate-verify-with-expert,
below 0.6 low-manual-review, empty additions within-target), and the wrapper
explanation also has a within-target text for empty additions; but the
confidence phrase inside the wrapper explanation uses the wrapper-specific
thresholds 0.85 and 0.70 rather than 0.8 and 0.6. -/
theorem correction_message_tiers (grade : String) (additions : List (Element × ℚ))
    (confidence : ℚ) :
    (additions = [] → AlloyCorrectionAgent.message_for additions confidence =
      "Composition is close to target. No significant additions needed.") ∧
    (additions ≠ [] → 8/10 ≤ confidence →
      AlloyCorrectionAgent.message_for additions confidence =
        "High confidence recommendation. Additions should bring composition into spec.") ∧
    (additions ≠ [] → 6/10 ≤ confidence → confidence < 8/10 →
      AlloyCorrectionAgent.message_for additions confidence =
        "Moderate confidence. Consider verifying with metallurgical expert.") ∧
    (additions ≠ [] → confidence < 6/10 →
      AlloyCorrectionAgent.message_for additions confidence =
        "Low confidence. Large corrections needed. Manual review recommended.") ∧
    (additions = [] → AlloyCorrectionAgentWrapper.generate_explanation grade additions confidence =
      "Composition is within acceptable range for " ++ grade ++ ". No additions required.") ∧
    (85/100 ≤ confidence →
      AlloyCorrectionAgentWrapper.confidence_text confidence = "High confidence") ∧
    (70/100 ≤ confidence → confidence < 85/100 →
      AlloyCorrectionAgentWrapper.confidence_text confidence = "Moderate confidence") ∧
    (confidence < 70/100 →
      AlloyCorrectionAgentWrapper.confidence_text confidence = "Low confidence") := by
  refine ⟨fun he => ?_, fun hne hc => ?_, fun hne hc hc2 => ?_, fun hne hc => ?_,
    fun he => ?_, fun hc => ?_, fun hc hc2 => ?_, fun hc => ?_⟩
  · unfold AlloyCorrectionAgent.message_for
    rw [if_pos he]
  · unfold AlloyCorrectionAgent.message_for
    rw [if_neg hne, if_pos (by exact hc)]
  · unfold AlloyCorrectionAgent.message_for
    rw [if_neg hne, if_neg (by exact not_le.mpr hc2), if_pos (by exact hc)]
  · unfold AlloyCorrectionAgent.message_for
    rw [if_neg hne, if_neg (by exact not_le.mpr (by linarith)),
      if_neg (by exact not_le.mpr hc)]
  · unfold AlloyCorrectionAgentWrapper.generate_explanation
    rw [if_pos he]
  · unfold AlloyCorrectionAgentWrapper.confidence_text
    rw [if_pos (by exact hc)]
  · unfold AlloyCorrectionAgentWrapper.confidence_text
    rw [if_neg (by exact not_le.mpr hc2), if_pos (by exact hc)]
  · unfold AlloyCorrectionAgentWrapper.confidence_text
    rw [if_neg (by exact not_le.mpr (by linarith)), if_neg (by exact not_le.mpr hc)]

/-- Witness for C8 (amended), touching each tier at a concrete confidence:
0.82 selects the inner high-confidence message but the moderate wrapper
phrase; 0.55 selects the inner low-confidence message. -/
theorem correction_message_tiers_witness :
    AlloyCorrectionAgent.message_for [(Element.Si, 1/2)] (82/100) =
      "High confidence recommendation. Additions should bring composition into spec." ∧
    AlloyCorrectionAgentWrapper.confidence_text (82/100) = "Moderate confidence" ∧
    AlloyCorrectionAgent.message_for [(Element.Si, 1/2)] (55/100) =
      "Low confidence. Large corrections needed. Manual review recommended." ∧
    AlloyCorrectionAgent.message_for [] (82/100) =
      "Composition is close to target. No significant additions needed." :=
  ⟨(correction_message_tiers "SG-IRON" [(Element.Si, 1/2)] (82/100)).2.1
      (by simp) (by norm_num),
    ((correction_message_tiers "SG-IRON" [(Element.Si, 1/2)] (82/100)).2.2.2.2.2.2.1
      (by norm_num) (by norm_num)),
    (correction_message_tiers "SG-IRON" [(Element.Si, 1/2)] (55/100)).2.2.2.1
      (by simp) (by norm_num),
    (correction_message_tiers "SG-IRON" ([] : List (Element × ℚ)) (82/100)).1 rfl⟩

/-- C6: an unknown grade makes AlloyCorrectionAgent.predict return the empty
additions map with confidence 0 and the message naming the grade, and makes
AlloyCorrectionAgentWrapper.recommend return the empty structured response
with confidence 0 and the explanation naming the grade — in both cases a
returned value, never an exception. -/
theorem unknown_grade_empty_result (grade_encodings : List String) (grade : String)
    (prediction : Element → ℚ) (composition target_comp : Composition)
    (grades : List String) (ml_result : Except String CorrectionResult)
    (henc : grade ∉ grade_encodings) (hav : grade ∉ grades) :
    AlloyCorrectionAgent.predict grade_encodings grade prediction composition target_comp =
      ⟨[], 0, "Unknown grade: " ++ grade, some ("Grade not in training data: " ++ grade)⟩ ∧
    AlloyCorrectionAgentWrapper.recommend grades grade ml_result =
      ⟨"AlloyCorrectionAgent", [], 0,
        "Unknown grade: " ++ grade ++ ". Available: " ++ String.intercalate ", " grades⟩ := by
  constructor
  · unfold AlloyCorrectionAgent.predict
    rw [if_pos henc]
  · unfold AlloyCorrectionAgentWrapper.recommend
    rw [if_pos hav]

/-- Witness for C6 at the grade "UNOBTAINIUM", which is in neither the
trained grade set nor the registered grade list. -/
theorem unknown_grade_empty_result_witness :
    AlloyCorrectionAgent.predict available_grades "UNOBTAINIUM" (fun _ => 2)
        (constComp 1) (constComp 1) =
      ⟨[], 0, "Unknown grade: " ++ "UNOBTAINIUM",
        some ("Grade not in training data: " ++ "UNOBTAINIUM")⟩ ∧
    AlloyCorrectionAgentWrapper.recommend available_grades "UNOBTAINIUM"
        (.error "model failure") =
      ⟨"AlloyCorrectionAgent", [], 0,
        "Unknown grade: " ++ "UNOBTAINIUM" ++ ". Available: " ++
          String.intercalate ", " available_grades⟩ :=
  unknown_grade_empty_result available_grades "UNOBTAINIUM" (fun _ => 2)
    (constComp 1) (constComp 1) available_grades (.error "model failure")
    (by decide) (by decide)

/-- The aggregated response dictionary of AgentManager.analyze. -/
structure AnalysisResponse where
  anomaly_agent : Option AnomalyAgentResponse
  alloy_agent : Option AlloyAgentResponse
  final_note : String
  timestamp : String
deriving DecidableEq, Repr

/-- AgentManager._run_anomaly_agent: the whole stage call sits in a
try/except, so any failure (agent not ready, or any exception from the
wrapped analyze call, `outcome = .error e`) is substituted with the
ERROR-tagged response with score 0 and confidence 0. -/
def AgentManager.run_anomaly_agent
    (outcome : Except String AnomalyAgentResponse) : AnomalyAgentResponse :=
  match outcome with
  | .ok r => r
  | .error e =>
    ⟨"AnomalyDetectionAgent", 0, "ERROR", 0, "Agent execution error: " ++ e⟩

/-- AgentManager._run_alloy_agent: same try/except boundary for the alloy
stage; failures become the empty ERROR substitute. -/
def AgentManager.run_alloy_agent
    (outcome : Except String AlloyAgentResponse) : AlloyAgentResponse :=
  match outcome with
  | .ok r => r
  | .error e =>
    ⟨"AlloyCorrectionAgent", [], 0, "Agent execution error: " ++ e⟩

/-- AgentManager.analyze: run the anomaly stage (the policy gate
should_check_anomaly is always true), gate the alloy stage on
should_recommend_alloy applied to the severity of the anomaly stage, and
aggregate with the constant safety note and the request timestamp.  The two
`outcome` parameters are the results the two wrapped agents would deliver,
errors standing for the exceptions their calls may raise. -/
def AgentManager.analyze (anomaly_outcome : Except String AnomalyAgentResponse)
    (alloy_outcome : Except String AlloyAgentResponse)
    (composition : Composition) (timestamp : String) : AnalysisResponse :=
  let anomaly_agent :=
    if DecisionPolicy.should_check_anomaly composition then
      some (AgentManager.run_anomaly_agent anomaly_outcome)
    else none
  let alloy_agent :=
    if DecisionPolicy.should_recommend_alloy (anomaly_agent.map fun r => some r.severity) then
      some (AgentManager.run_alloy_agent alloy_outcome)
    else
      some ⟨"AlloyCorrectionAgent", [], 0,
        "Not invoked - anomaly severity below threshold (must be MEDIUM or HIGH)"⟩
  ⟨anomaly_agent, alloy_agent, DecisionPolicy.get_safety_note, timestamp⟩

/-- C5: a failing anomaly stage is substituted with the ERROR-tagged result
(severity ERROR, anomaly_score 0, confidence 0) for that stage only, a
failing alloy stage is substituted with its own ERROR result while the
anomaly result is untouched, and in both cases analyze still returns the
full aggregated response carrying the safety note and timestamp. -/
theorem analyze_stage_error_isolation (e e2 : String)
    (alloy_outcome : Except String AlloyAgentResponse)
    (composition : Composition) (timestamp : String)
    (sc conf : ℚ) (expl : String) :
    AgentManager.analyze (.error e) alloy_outcome composition timestamp =
      ⟨some ⟨"AnomalyDetectionAgent", 0, "ERROR", 0, "Agent execution error: " ++ e⟩,
        some ⟨"AlloyCorrectionAgent", [], 0,
          "Not invoked - anomaly severity below threshold (must be MEDIUM or HIGH)"⟩,
        DecisionPolicy.get_safety_note, timestamp⟩ ∧
    AgentManager.analyze (.ok ⟨"AnomalyDetectionAgent", sc, "HIGH", conf, expl⟩)
        (.error e2) composition timestamp =
      ⟨some ⟨"AnomalyDetectionAgent", sc, "HIGH", conf, expl⟩,
        some ⟨"AlloyCorrectionAgent", [], 0, "Agent execution error: " ++ e2⟩,
        DecisionPolicy.get_safety_note, timestamp⟩ := by
  constructor
  · unfold AgentManager.analyze AgentManager.run_anomaly_agent
    simp [DecisionPolicy.should_check_anomaly, DecisionPolicy.should_recommend_alloy,
      SeverityLevel.val]
  · unfold AgentManager.analyze AgentManager.run_anomaly_agent AgentManager.run_alloy_agent
    simp [DecisionPolicy.should_check_anomaly, DecisionPolicy.should_recommend_alloy,
      SeverityLevel.val]

/-- Witness for C5 at concrete inputs: anomaly stage failing with
"Anomaly agent not ready", alloy stage failing with "Alloy agent not
ready". -/
theorem analyze_stage_error_isolation_witness :
    AgentManager.analyze (.error "Anomaly agent not ready")
        (.error "Alloy agent not ready") (constComp 1) "2026-10-12T00:00:00Z" =
      ⟨some ⟨"AnomalyDetectionAgent", 0, "ERROR", 0,
          "Agent execution error: " ++ "Anomaly agent not ready"⟩,
        some ⟨"AlloyCorrectionAgent", [], 0,
          "Not invoked - anomaly severity below threshold (must be MEDIUM or HIGH)"⟩,
        DecisionPolicy.get_safety_note, "2026-10-12T00:00:00Z"⟩ :=
  (analyze_stage_error_isolation "Anomaly agent not ready" "unused"
    (.error "Alloy agent not ready") (constComp 1) "2026-10-12T00:00:00Z"
    0 0 "unused").1

/-- The validated agent composition of app/schemas.py (AgentComposition):
Fe, C, Si, Mn required, P and S optional with default 0.0, every field
constrained to [0, 100]. -/
structure AgentComposition where
  Fe : ℚ
  C : ℚ
  Si : ℚ
  Mn : ℚ
  P : ℚ
  S : ℚ
deriving DecidableEq, Repr

/-- Pydantic validation of AgentComposition, as declared by its Field
constraints: a missing required field (Fe, C, Si, Mn) or any present field
outside [0, 100] is a validation error; missing P or S defaults to 0.0. -/
def parse_agent_composition (fe c si mn p s : Option ℚ) : Except String AgentComposition :=
  match fe, c, si, mn with
  | some feV, some cV, some siV, some mnV =>
    let pV := p.getD 0
    let sV := s.getD 0
    if 0 ≤ feV ∧ feV ≤ 100 ∧ 0 ≤ cV ∧ cV ≤ 100 ∧ 0 ≤ siV ∧ siV ≤ 100 ∧
        0 ≤ mnV ∧ mnV ≤ 100 ∧ 0 ≤ pV ∧ pV ≤ 100 ∧ 0 ≤ sV ∧ sV ≤ 100 then
      .ok ⟨feV, cV, siV, mnV, pV, sV⟩
    else
      .error "Input should be less than or equal to 100 and greater than or equal to 0"
  | _, _, _, _ => .error "Field required"

/-- The composition function handed to the pipeline by the /agents/analyze
route after validation succeeded. -/
def AgentComposition.toComposition (c : AgentComposition) : Composition
  | .Fe => c.Fe
  | .C => c.C
  | .Si => c.Si
  | .Mn => c.Mn
  | .P => c.P
  | .S => c.S

/-- The /agents/analyze route of app/main.py: FastAPI validates the request
body against AgentAnalysisRequest first; only on success is
AgentManager.analyze invoked.  A validation failure is surfaced to the
caller as a rejected request (`.error`). -/
def agent_analysis (fe c si mn p s : Option ℚ) (_grade : String)
    (anomaly_outcome : Except String AnomalyAgentResponse)
    (alloy_outcome : Except String AlloyAgentResponse)
    (timestamp : String) : Except String AnalysisResponse :=
  match parse_agent_composition fe c si mn p s with
  | .error e => .error e
  | .ok comp =>
    .ok (AgentManager.analyze anomaly_outcome alloy_outcome comp.toComposition timestamp)

/-- C7: a request whose composition is missing a required element or carries
any element value outside [0, 100] is rejected at input validation: the
route returns an error to the caller and no pipeline stage runs (the
manager is only invoked in the success branch). -/
theorem invalid_composition_rejected (fe c si mn p s : Option ℚ) (grade : String)
    (anomaly_outcome : Except String AnomalyAgentResponse)
    (alloy_outcome : Except String AlloyAgentResponse) (timestamp : String)
    (hbad : fe = none ∨ c = none ∨ si = none ∨ mn = none ∨
      (∃ v, (fe = some v ∨ c = some v ∨ si = some v ∨ mn = some v ∨
        p = some v ∨ s = some v) ∧ (v < 0 ∨ 100 < v))) :
    ∃ err, agent_analysis fe c si mn p s grade anomaly_outcome alloy_outcome timestamp =
      .error err := by
  rcases fe with - | feV
  · exact ⟨"Field required", by unfold agent_analysis parse_agent_composition; rfl⟩
  rcases c with - | cV
  · exact ⟨"Field required", by unfold agent_analysis parse_agent_composition; rfl⟩
  rcases si with - | siV
  · exact ⟨"Field required", by unfold agent_analysis parse_agent_composition; rfl⟩
  rcases mn with - | mnV
  · exact ⟨"Field required", by unfold agent_analysis parse_agent_composition; rfl⟩
  refine ⟨"Input should be less than or equal to 100 and greater than or equal to 0", ?_⟩
  rcases hbad with h | h | h | h | ⟨v, hv, hrange⟩
  · exact absurd h (by simp)
  · exact absurd h (by simp)
  · exact absurd h (by simp)
  · exact absurd h (by simp)
  have hcond : ¬ (0 ≤ feV ∧ feV ≤ 100 ∧ 0 ≤ cV ∧ cV ≤ 100 ∧ 0 ≤ siV ∧ siV ≤ 100 ∧
      0 ≤ mnV ∧ mnV ≤ 100 ∧ 0 ≤ Option.getD p 0 ∧ Option.getD p 0 ≤ 100 ∧
      0 ≤ Option.getD s 0 ∧ Option.getD s 0 ≤ 100) := by
    intro hall
    obtain ⟨h1, h2, h3, h4, h5, h6, h7, h8, h9, h10, h11, h12⟩ := hall
    rcases hv with h | h | h | h | h | h
    · injection h with h
      subst h
      rcases hrange with hr | hr
      · exact absurd h1 (not_le.mpr hr)
      · exact absurd h2 (not_le.mpr hr)
    · injection h with h
      subst h
      rcases hrange with hr | hr
      · exact absurd h3 (not_le.mpr hr)
      · exact absurd h4 (not_le.mpr hr)
    · injection h with h
      subst h
      rcases hrange with hr | hr
      · exact absurd h5 (not_le.mpr hr)
      · exact absurd h6 (not_le.mpr hr)
    · injection h with h
      subst h
      rcases hrange with hr | hr
      · exact absurd h7 (not_le.mpr hr)
      · exact absurd h8 (not_le.mpr hr)
    · rw [h, Option.getD_some] at h9 h10
      rcases hrange with hr | hr
      · exact absurd h9 (not_le.mpr hr)
      · exact absurd h10 (not_le.mpr hr)
    · rw [h, Option.getD_some] at h11 h12
      rcases hrange with hr | hr
      · exact absurd h11 (not_le.mpr hr)
      · exact absurd h12 (not_le.mpr hr)
  unfold agent_analysis parse_agent_composition
  dsimp only
  rw [if_neg hcond]

/-- Witness for C7: a composition with Fe = 150 (outside [0, 100]) is
rejected. -/
theorem invalid_composition_rejected_witness :
    ∃ err, agent_analysis (some 150) (some 3) (some 2) (some 1) (some 0) (some 0)
      "SG-IRON" (.error "unused") (.error "unused") "2026-10-12T00:00:00Z" = .error err :=
  invalid_composition_rejected (some 150) (some 3) (some 2) (some 1) (some 0) (some 0)
    "SG-IRON" (.error "unused") (.error "unused") "2026-10-12T00:00:00Z"
    (Or.inr (Or.inr (Or.inr (Or.inr ⟨150, Or.inl rfl, Or.inr (by norm_num)⟩))))

end MetalliSense
